import Mathlib

/-!
Verification of the music-categorization dataset pipeline
(`prepare_dataset.py` / `const.py`).

The development shallowly embeds the pipeline's functions:

* `sanitize_filename` — character-wise sanitization of derived filenames;
* `save_to_csv` — the append-only manifest writer (the CSV file is
  modelled as `Option (List (List String))`, `none` meaning the file
  does not exist yet, `some rows` its current rows);
* `get_songs_by_genre` — the catalog fetch with retry, modelled over an
  oracle `SpotifyApi` that, for a genre, an offset and an attempt index,
  either errors (`none`, the Python call raising) or returns the parsed
  list of track items;
* `download_youtube_audio` / `convert_to_wav` — the per-track media
  resolution, download and transcode, modelled over per-song outcome
  oracles, a filesystem modelled as the list of existing paths, and an
  explicit event trace recording searches, downloads, codec invocations
  and unlinks;
* `build` — the per-genre pagination driver loop.
-/

namespace MusicCat

/-- Track item as consumed from a catalog search response:
`track['duration_ms']`, `track['name']`, and the names of
`track['artists']` in order. -/
structure Track where
  duration_ms : Nat
  name : String
  artists : List String
  deriving DecidableEq, Repr

/-- Entry of the list returned by `get_songs_by_genre`:
`{'artist_name': ..., 'song_name': ...}`. -/
structure Song where
  artist_name : String
  song_name : String
  deriving DecidableEq, Repr

/-- Per-character sanitization from `sanitize_filename`
(line 179 of `prepare_dataset.py`): `c if c.isalnum() or c in " -_"
else "_"`.  Python's Unicode `isalnum` is modelled by `Char.isAlphanum`. -/
def sanitize_char (c : Char) : Char :=
  if c.isAlphanum || c = ' ' || c = '-' || c = '_' then c else '_'

/-- Embeds `sanitize_filename` (lines 175-179): the join of the
sanitized characters of the input. -/
def sanitize_filename (filename : String) : String :=
  String.mk (filename.data.map sanitize_char)

/-- C8: for every input string, every character of the string returned by
`sanitize_filename` is an alphanumeric character, a space, a hyphen, or
an underscore. -/
theorem sanitize_filename_charset (s : String) (c : Char)
    (hc : c ∈ (sanitize_filename s).data) :
    c.isAlphanum = true ∨ c = ' ' ∨ c = '-' ∨ c = '_' := by
  rcases List.mem_map.mp hc with ⟨c0, _, rfl⟩
  unfold sanitize_char
  split
  · rename_i h
    rcases Bool.or_eq_true_iff.mp h with h | h
    · rcases Bool.or_eq_true_iff.mp h with h | h
      · rcases Bool.or_eq_true_iff.mp h with h | h
        · exact Or.inl h
        · exact Or.inr (Or.inl (by simpa using h))
      · exact Or.inr (Or.inr (Or.inl (by simpa using h)))
    · exact Or.inr (Or.inr (Or.inr (by simpa using h)))
  · exact Or.inr (Or.inr (Or.inr rfl))

/-- Witness for C8 at a concrete input: the slash of `"a/b"` is replaced
and every output character is in the allowed set. -/
theorem sanitize_filename_charset_witness :
    '_' ∈ (sanitize_filename "a/b").data ∧
      ('_'.isAlphanum = true ∨ '_' = ' ' ∨ '_' = '-' ∨ '_' = '_') :=
  ⟨by decide, sanitize_filename_charset "a/b" '_' (by decide)⟩

/-- C9: `sanitize_filename` preserves the length of its input; each
character is kept when it is alphanumeric or a space, hyphen or
underscore, and is replaced in place by an underscore otherwise, so
distinct inputs can map to the same filename (witnessed by
`"a/b"` and `"a_b"`). -/
theorem sanitize_filename_length_preserving (s : String) :
    (sanitize_filename s).length = s.length ∧
      (∀ (i : Nat) (h1 : i < (sanitize_filename s).data.length)
          (h2 : i < s.data.length),
        (sanitize_filename s).data[i] =
          (if (s.data[i]).isAlphanum || s.data[i] = ' ' || s.data[i] = '-'
              || s.data[i] = '_' then s.data[i] else '_')) ∧
      sanitize_filename "a/b" = sanitize_filename "a_b" ∧
      "a/b" ≠ "a_b" := by
  refine ⟨?_, ?_, by decide, by decide⟩
  · exact List.length_map s.data sanitize_char
  · intro i h1 h2
    simp [sanitize_filename, sanitize_char]

/-- Witness for C9 at a concrete input: position 1 of `"a/b"` is replaced
in place by an underscore. -/
theorem sanitize_filename_length_preserving_witness :
    (sanitize_filename "a/b").data.get ⟨1, by decide⟩ = '_' := by
  have h := (sanitize_filename_length_preserving "a/b").2.1 1 (by decide) (by decide)
  exact h.trans (by decide)

/-- Model of the aggregated CSV manifest file: `none` when the file does
not exist yet, `some rows` its current list of rows (each row a list of
cells). -/
def CsvFile : Type := Option (List (List String))

instance : DecidableEq CsvFile := by
  unfold CsvFile
  infer_instance

/-- Rows currently stored in the manifest file (a missing file has no
rows). -/
def csv_rows : CsvFile → List (List String)
  | none => []
  | some rows => rows

/-- Header row written by `save_to_csv` on first creation
(line 98 of `prepare_dataset.py`). -/
def header_row : List String := ["Genre", "Song Name", "Artist Name"]

/-- Embeds `save_to_csv` (lines 84-99): opens the file in append mode
(creating it when absent), writes the header first when the file did not
exist, then appends the `[genre, song_name, artist_name]` row. -/
def save_to_csv (file : CsvFile) (genre song_name artist_name : String) :
    CsvFile :=
  match file with
  | none => some [header_row, [genre, song_name, artist_name]]
  | some rows => some (rows ++ [[genre, song_name, artist_name]])

/-- C7: every call to `save_to_csv` only appends to the manifest: the new
contents are the old rows followed by the header (exactly when the file
did not yet exist) and the new data row, so existing rows are never
rewritten or removed and the row count never decreases. -/
theorem save_to_csv_append_only (file : CsvFile) (g s a : String) :
    save_to_csv file g s a =
      some (csv_rows file ++
        (if file = (none : CsvFile) then [header_row, [g, s, a]]
          else [[g, s, a]])) ∧
      (csv_rows file).length ≤ (csv_rows (save_to_csv file g s a)).length := by
  cases file with
  | none => simp [save_to_csv, csv_rows]
  | some rows =>
    refine ⟨?_, ?_⟩
    · have hne : (some rows : CsvFile) ≠ (none : CsvFile) :=
        Option.some_ne_none rows
      simp [save_to_csv, csv_rows, hne]
    · simp [save_to_csv, csv_rows]

/-- Oracle for the catalog capability `sp.search`: for a genre, an
offset, and an attempt index, either the call raises (`none`) or returns
the parsed `tracks.items` list. -/
def SpotifyApi : Type := String → Int → Nat → Option (List Track)

/-- Result of one call to `get_songs_by_genre`: the returned list, the
manifest file after the call, the number of catalog search requests
issued, and the number of 1-second sleeps performed (one after each
failed attempt). -/
structure FetchResult where
  results : List Song
  csv : CsvFile
  attempts : Nat
  sleeps : Nat

/-- Embeds the `for track in tracks` body of `get_songs_by_genre`
(lines 59-71): tracks shorter than 30000 ms are skipped; otherwise the
first artist name is read (`track['artists'][0]` raises on an empty
artist list, modelled by the `false` completion flag, keeping the songs
and manifest rows accumulated so far), the song is appended to the
results and a manifest row is written. -/
def process_tracks (genre : String) :
    List Track → List Song → CsvFile → List Song × CsvFile × Bool
  | [], results, csv => (results, csv, true)
  | t :: ts, results, csv =>
    if t.duration_ms < 30 * 1000 then
      process_tracks genre ts results csv
    else
      match t.artists with
      | [] => (results, csv, false)
      | a :: _ =>
        process_tracks genre ts (results ++ [⟨a, t.name⟩])
          (save_to_csv csv genre t.name a)

/-- Embeds the `while retries < max_calls` loop of `get_songs_by_genre`
(lines 48-79): `remaining` is `max_calls - retries` and `attempt` the
number of calls already made.  Each iteration issues one catalog search;
a raising call (or an exception while processing the response) increments
the retry count and sleeps one second; an empty `tracks` list or a fully
processed response returns the accumulated results. -/
def fetch_loop (sp : SpotifyApi) (genre : String) (offset : Int) :
    Nat → Nat → List Song → CsvFile → Nat → FetchResult
  | 0, attempt, results, csv, sleeps => ⟨results, csv, attempt, sleeps⟩
  | remaining + 1, attempt, results, csv, sleeps =>
    match sp genre offset attempt with
    | none => fetch_loop sp genre offset remaining (attempt + 1) results csv
        (sleeps + 1)
    | some [] => ⟨results, csv, attempt + 1, sleeps⟩
    | some (t :: ts) =>
      match process_tracks genre (t :: ts) results csv with
      | (results1, csv1, true) => ⟨results1, csv1, attempt + 1, sleeps⟩
      | (results1, csv1, false) =>
        fetch_loop sp genre offset remaining (attempt + 1) results1 csv1
          (sleeps + 1)

/-- Embeds `get_songs_by_genre` (lines 33-82): starts with empty
results and zero retries.  The Python `max_calls` is an `int`; the
`while retries < max_calls` loop runs `max_calls.toNat` times at most. -/
def get_songs_by_genre (sp : SpotifyApi) (genre : String) (offset : Int)
    (max_calls : Int) (csv : CsvFile) : FetchResult :=
  fetch_loop sp genre offset max_calls.toNat 0 [] csv 0

/-- With an always-erroring catalog, `fetch_loop` performs one search and
one sleep per remaining retry and keeps results and manifest unchanged. -/
theorem fetch_loop_all_errors (sp : SpotifyApi) (genre : String)
    (offset : Int) (h : ∀ k, sp genre offset k = none) :
    ∀ (remaining attempt : Nat) (results : List Song) (csv : CsvFile)
      (sleeps : Nat),
      fetch_loop sp genre offset remaining attempt results csv sleeps =
        ⟨results, csv, attempt + remaining, sleeps + remaining⟩ := by
  intro remaining
  induction remaining with
  | zero => intro attempt results csv sleeps; simp [fetch_loop]
  | succ n ih =>
    intro attempt results csv sleeps
    rw [fetch_loop, h attempt, ih]
    refine congrArg₂ (fun x y => FetchResult.mk results csv x y) ?_ ?_ <;> omega

/-- C1: for every genre, offset and nonnegative retry budget, if every
catalog search call raises, `get_songs_by_genre` makes exactly
`max_calls` search attempts, sleeps one second after each failed
attempt, returns the empty list, and leaves the manifest unchanged (the
loop catches every exception, so the call never raises). -/
theorem get_songs_by_genre_retry_bound (sp : SpotifyApi) (genre : String)
    (offset max_calls : Int) (csv : CsvFile)
    (hm : 0 ≤ max_calls) (herr : ∀ k, sp genre offset k = none) :
    get_songs_by_genre sp genre offset max_calls csv =
        ⟨[], csv, max_calls.toNat, max_calls.toNat⟩ ∧
      (max_calls.toNat : Int) = max_calls := by
  refine ⟨?_, Int.toNat_of_nonneg hm⟩
  unfold get_songs_by_genre
  rw [fetch_loop_all_errors sp genre offset herr]
  simp

/-- Witness for C1 at a concrete input: an always-erroring catalog with a
budget of 3 yields exactly 3 attempts, 3 sleeps, no songs and an
untouched manifest. -/
theorem get_songs_by_genre_retry_bound_witness :
    get_songs_by_genre (fun _ _ _ => none) "jazz" 0 3 (none : CsvFile) =
        ⟨[], (none : CsvFile), (3 : Int).toNat, (3 : Int).toNat⟩ ∧
      (((3 : Int).toNat : Int) = (3 : Int)) :=
  get_songs_by_genre_retry_bound (fun _ _ _ => none) "jazz" 0 3
    (none : CsvFile) (by decide) (fun _ => rfl)

/-- C10: for every genre and offset, calling `get_songs_by_genre` with a
nonpositive `max_calls` returns the empty list without issuing any
catalog search request and without writing any manifest row. -/
theorem get_songs_by_genre_nonpositive_budget (sp : SpotifyApi)
    (genre : String) (offset max_calls : Int) (csv : CsvFile)
    (hm : max_calls ≤ 0) :
    get_songs_by_genre sp genre offset max_calls csv = ⟨[], csv, 0, 0⟩ := by
  unfold get_songs_by_genre
  rw [Int.toNat_of_nonpos hm]
  rfl

/-- Witness for C10 at a concrete input: a budget of `-2` issues no
search and writes nothing. -/
theorem get_songs_by_genre_nonpositive_budget_witness :
    get_songs_by_genre (fun _ _ _ => some [⟨40000, "S", ["A"]⟩]) "rock" 50
        (-2) (none : CsvFile) = ⟨[], (none : CsvFile), 0, 0⟩ :=
  get_songs_by_genre_nonpositive_budget _ "rock" 50 (-2) (none : CsvFile)
    (by decide)

/-- Property of a song of being derived from a track of some successful
catalog response whose duration is at least 30000 ms, with the song's
artist the track's first artist and the song's name the track's name. -/
def song_from_long_track (sp : SpotifyApi) (genre : String) (offset : Int)
    (s : Song) : Prop :=
  ∃ k tracks t, sp genre offset k = some tracks ∧ t ∈ tracks ∧
    30 * 1000 ≤ t.duration_ms ∧ t.name = s.song_name ∧
    t.artists.head? = some s.artist_name

/-- Property of a manifest row of being derived from a track of some
successful catalog response whose duration is at least 30000 ms. -/
def row_from_long_track (sp : SpotifyApi) (genre : String) (offset : Int)
    (row : List String) : Prop :=
  ∃ k tracks t a, sp genre offset k = some tracks ∧ t ∈ tracks ∧
    30 * 1000 ≤ t.duration_ms ∧ t.artists.head? = some a ∧
    row = [genre, t.name, a]

/-- Rows present after a `save_to_csv` call were already present, or are
the header, or are the row just written. -/
theorem save_to_csv_mem (file : CsvFile) (g sname aname : String)
    (row : List String)
    (h : row ∈ csv_rows (save_to_csv file g sname aname)) :
    row ∈ csv_rows file ∨ row = header_row ∨ row = [g, sname, aname] := by
  cases file with
  | none =>
    simp only [save_to_csv, csv_rows, List.mem_cons, List.mem_singleton,
      List.not_mem_nil] at h ⊢
    tauto
  | some rows =>
    simp only [save_to_csv, csv_rows, List.mem_append,
      List.mem_singleton] at h ⊢
    tauto

/-- Songs accumulated by `process_tracks` were already accumulated or
come from an input track at least 30000 ms long. -/
theorem process_tracks_results_mem (genre : String) :
    ∀ (ts : List Track) (results : List Song) (csv : CsvFile) (s : Song),
      s ∈ (process_tracks genre ts results csv).1 →
      s ∈ results ∨ ∃ t, t ∈ ts ∧ 30 * 1000 ≤ t.duration_ms ∧
        t.name = s.song_name ∧ t.artists.head? = some s.artist_name := by
  intro ts
  induction ts with
  | nil =>
    intro results csv s h
    exact Or.inl h
  | cons t ts ih =>
    intro results csv s h
    simp only [process_tracks] at h
    split at h
    · rename_i hd
      rcases ih results csv s h with h1 | ⟨u, hu, hrest⟩
      · exact Or.inl h1
      · exact Or.inr ⟨u, List.mem_cons_of_mem t hu, hrest⟩
    · rename_i hd
      rcases ha : t.artists with _ | ⟨a, rest⟩
      · rw [ha] at h
        exact Or.inl h
      · rw [ha] at h
        rcases ih _ _ s h with h1 | ⟨u, hu, hrest⟩
        · rcases List.mem_append.mp h1 with h2 | h2
          · exact Or.inl h2
          · have hs : s = ⟨a, t.name⟩ := by simpa using h2
            subst hs
            exact Or.inr ⟨t, List.mem_cons_self t ts, by omega, rfl,
              by simp [ha]⟩
        · exact Or.inr ⟨u, List.mem_cons_of_mem t hu, hrest⟩

/-- Manifest rows present after `process_tracks` were already present,
or are the header, or come from an input track at least 30000 ms long. -/
theorem process_tracks_rows_mem (genre : String) :
    ∀ (ts : List Track) (results : List Song) (csv : CsvFile)
      (row : List String),
      row ∈ csv_rows (process_tracks genre ts results csv).2.1 →
      row ∈ csv_rows csv ∨ row = header_row ∨
        ∃ t a, t ∈ ts ∧ 30 * 1000 ≤ t.duration_ms ∧
          t.artists.head? = some a ∧ row = [genre, t.name, a] := by
  intro ts
  induction ts with
  | nil =>
    intro results csv row h
    exact Or.inl h
  | cons t ts ih =>
    intro results csv row h
    simp only [process_tracks] at h
    split at h
    · rename_i hd
      rcases ih results csv row h with h1 | h1 | ⟨u, a, hu, hrest⟩
      · exact Or.inl h1
      · exact Or.inr (Or.inl h1)
      · exact Or.inr (Or.inr ⟨u, a, List.mem_cons_of_mem t hu, hrest⟩)
    · rename_i hd
      rcases ha : t.artists with _ | ⟨a, rest⟩
      · rw [ha] at h
        exact Or.inl h
      · rw [ha] at h
        rcases ih _ _ row h with h1 | h1 | ⟨u, b, hu, hrest⟩
        · rcases save_to_csv_mem csv genre t.name a row h1 with h2 | h2 | h2
          · exact Or.inl h2
          · exact Or.inr (Or.inl h2)
          · exact Or.inr (Or.inr ⟨t, a, List.mem_cons_self t ts, by omega,
              by simp [ha], h2⟩)
        · exact Or.inr (Or.inl h1)
        · exact Or.inr (Or.inr ⟨u, b, List.mem_cons_of_mem t hu, hrest⟩)

/-- Songs returned by `fetch_loop` were already accumulated or come from
a track at least 30000 ms long of some successful catalog response. -/
theorem fetch_loop_results_mem (sp : SpotifyApi) (genre : String)
    (offset : Int) :
    ∀ (remaining attempt : Nat) (results : List Song) (csv : CsvFile)
      (sleeps : Nat) (s : Song),
      s ∈ (fetch_loop sp genre offset remaining attempt results csv
          sleeps).results →
      s ∈ results ∨ song_from_long_track sp genre offset s := by
  intro remaining
  induction remaining with
  | zero =>
    intro attempt results csv sleeps s h
    exact Or.inl h
  | succ n ih =>
    intro attempt results csv sleeps s h
    rw [fetch_loop] at h
    split at h
    · exact ih _ _ _ _ s h
    · exact Or.inl h
    · rename_i t ts hsp
      have from_batch : ∀ (results1 : List Song) (csv1 : CsvFile)
          (ok : Bool),
          process_tracks genre (t :: ts) results csv = (results1, csv1, ok) →
          s ∈ results1 →
          s ∈ results ∨ song_from_long_track sp genre offset s := by
        intro results1 csv1 ok hpt hmem
        rcases process_tracks_results_mem genre (t :: ts) results csv s
            (by rw [hpt]; exact hmem) with h1 | ⟨u, hu, h2, h3, h4⟩
        · exact Or.inl h1
        · exact Or.inr ⟨attempt, t :: ts, u, hsp, hu, h2, h3, h4⟩
      split at h
      · rename_i results1 csv1 hpt
        exact from_batch results1 csv1 true hpt h
      · rename_i results1 csv1 hpt
        rcases ih _ _ _ _ s h with h1 | h1
        · exact from_batch results1 csv1 false hpt h1
        · exact Or.inr h1

/-- Manifest rows present after `fetch_loop` were already present, or
are the header, or come from a track at least 30000 ms long of some
successful catalog response. -/
theorem fetch_loop_rows_mem (sp : SpotifyApi) (genre : String)
    (offset : Int) :
    ∀ (remaining attempt : Nat) (results : List Song) (csv : CsvFile)
      (sleeps : Nat) (row : List String),
      row ∈ csv_rows (fetch_loop sp genre offset remaining attempt results
          csv sleeps).csv →
      row ∈ csv_rows csv ∨ row = header_row ∨
        row_from_long_track sp genre offset row := by
  intro remaining
  induction remaining with
  | zero =>
    intro attempt results csv sleeps row h
    exact Or.inl h
  | succ n ih =>
    intro attempt results csv sleeps row h
    rw [fetch_loop] at h
    split at h
    · exact ih _ _ _ _ row h
    · exact Or.inl h
    · rename_i t ts hsp
      have from_batch : ∀ (results1 : List Song) (csv1 : CsvFile)
          (ok : Bool),
          process_tracks genre (t :: ts) results csv = (results1, csv1, ok) →
          row ∈ csv_rows csv1 →
          row ∈ csv_rows csv ∨ row = header_row ∨
            row_from_long_track sp genre offset row := by
        intro results1 csv1 ok hpt hmem
        rcases process_tracks_rows_mem genre (t :: ts) results csv row
            (by rw [hpt]; exact hmem) with h1 | h1 |
              ⟨u, a, hu, h2, h3, h4⟩
        · exact Or.inl h1
        · exact Or.inr (Or.inl h1)
        · exact Or.inr (Or.inr ⟨attempt, t :: ts, u, a, hsp, hu, h2, h3,
            h4⟩)
      split at h
      · rename_i results1 csv1 hpt
        exact from_batch results1 csv1 true hpt h
      · rename_i results1 csv1 hpt
        rcases ih _ _ _ _ row h with h1 | h1 | h1
        · exact from_batch results1 csv1 false hpt h1
        · exact Or.inr (Or.inl h1)
        · exact Or.inr (Or.inr h1)

/-- C6: for every catalog oracle, no track shorter than 30000 ms
contributes to the list returned by `get_songs_by_genre` — every
returned song is derived from a response track at least 30000 ms long —
and every manifest row written during the call (beyond the pre-existing
rows and the header) is likewise derived from such a track. -/
theorem duration_filter (sp : SpotifyApi) (genre : String)
    (offset max_calls : Int) (csv : CsvFile) :
    (∀ s ∈ (get_songs_by_genre sp genre offset max_calls csv).results,
        song_from_long_track sp genre offset s) ∧
      (∀ row ∈ csv_rows (get_songs_by_genre sp genre offset max_calls
          csv).csv,
        row ∈ csv_rows csv ∨ row = header_row ∨
          row_from_long_track sp genre offset row) := by
  constructor
  · intro s hs
    rcases fetch_loop_results_mem sp genre offset max_calls.toNat 0 [] csv 0
        s hs with h1 | h1
    · exact absurd h1 (List.not_mem_nil s)
    · exact h1
  · intro row hrow
    exact fetch_loop_rows_mem sp genre offset max_calls.toNat 0 [] csv 0
      row hrow

/-- Witness for C6 at a concrete input: a response containing one
31000 ms track and one 5000 ms track yields the long track's song, and
the written manifest row comes from the long track. -/
theorem duration_filter_witness :
    song_from_long_track
        (fun _ _ k => if k = 0 then
          some [⟨31000, "SongA", ["ArtistB"]⟩, ⟨5000, "Tiny", ["X"]⟩]
          else none) "jazz" 0 ⟨"ArtistB", "SongA"⟩ ∧
      (["jazz", "SongA", "ArtistB"] ∈ csv_rows (none : CsvFile) ∨
        ["jazz", "SongA", "ArtistB"] = header_row ∨
        row_from_long_track
          (fun _ _ k => if k = 0 then
            some [⟨31000, "SongA", ["ArtistB"]⟩, ⟨5000, "Tiny", ["X"]⟩]
            else none) "jazz" 0 ["jazz", "SongA", "ArtistB"]) :=
  ⟨(duration_filter
      (fun _ _ k => if k = 0 then
        some [⟨31000, "SongA", ["ArtistB"]⟩, ⟨5000, "Tiny", ["X"]⟩]
        else none) "jazz" 0 3 (none : CsvFile)).1
      ⟨"ArtistB", "SongA"⟩ (by decide),
    (duration_filter
      (fun _ _ k => if k = 0 then
        some [⟨31000, "SongA", ["ArtistB"]⟩, ⟨5000, "Tiny", ["X"]⟩]
        else none) "jazz" 0 3 (none : CsvFile)).2
      ["jazz", "SongA", "ArtistB"] (by decide)⟩

/-- Outcome of the external codec process invocation
`ffmpeg -i input -ar 44100 -ac 2 output` run with `check=True`:
exit code zero, a non-zero exit code (raising `CalledProcessError`), or
a missing binary (raising `FileNotFoundError`). -/
inductive RunOutcome where
  | ok : RunOutcome
  | nonZero : Nat → RunOutcome
  | missingBinary : RunOutcome
  deriving DecidableEq, Repr

/-- Observable behaviour of one `convert_to_wav` call: the value
returned to the caller (Python returns `None` on every path, modelled by
`Unit`), whether an error line was printed, whether an exception escaped
to the caller, and whether the output file was produced. -/
structure ConvertResult where
  ret : Unit
  errorLogged : Bool
  raised : Bool
  outputCreated : Bool
  deriving DecidableEq, Repr

/-- Embeds `convert_to_wav` (lines 181-195): runs the codec process with
`check=True` inside a `try` whose `except Exception` clause prints the
error, so the function returns `None` on every path and never lets an
exception escape; the output file exists afterwards exactly when the
process exited zero. -/
def convert_to_wav (proc : RunOutcome) : ConvertResult :=
  match proc with
  | RunOutcome.ok => ⟨(), false, false, true⟩
  | RunOutcome.nonZero _ => ⟨(), true, false, false⟩
  | RunOutcome.missingBinary => ⟨(), true, false, false⟩

/-- Counterexample to C4 as stated: the value `convert_to_wav` returns
to its caller is identical for a zero exit code and for exit code 1 (it
is `None` on both paths), and neither path raises, so the caller cannot
distinguish success from failure from the call's result. -/
theorem convert_to_wav_return_indistinguishable :
    (convert_to_wav RunOutcome.ok).ret =
        (convert_to_wav (RunOutcome.nonZero 1)).ret ∧
      (convert_to_wav RunOutcome.ok).raised =
        (convert_to_wav (RunOutcome.nonZero 1)).raised ∧
      RunOutcome.ok ≠ RunOutcome.nonZero 1 := by
  exact ⟨rfl, rfl, by decide⟩

/-- C4 amended: `convert_to_wav` returns `None` on every path and never
propagates an exception; success and failure are distinguishable only
through side effects — the output file is created exactly when the codec
process exits zero, and an error line is logged exactly when the process
exits non-zero or the binary is missing. -/
theorem convert_to_wav_outcome_via_side_effects (proc : RunOutcome) :
    (convert_to_wav proc).ret = () ∧
      (convert_to_wav proc).raised = false ∧
      ((convert_to_wav proc).outputCreated = true ↔ proc = RunOutcome.ok) ∧
      ((convert_to_wav proc).errorLogged = true ↔ proc ≠ RunOutcome.ok) := by
  cases proc <;> simp [convert_to_wav]

/-- Outcome of the media-source interaction for one candidate track:
the YouTube search raises, the search returns no results, an error
occurs after the search but before the download completes (stream
resolution or download I/O), or the download completes and the codec
process then finishes with the given outcome. -/
inductive MediaOutcome where
  | searchError : MediaOutcome
  | noResults : MediaOutcome
  | downloadError : MediaOutcome
  | downloaded : RunOutcome → MediaOutcome
  deriving DecidableEq, Repr

/-- Externally observable action performed while processing one
candidate track. -/
inductive Event where
  | searchIssued : String → Event
  | downloadCompleted : String → Event
  | convertCalled : String → String → Event
  | unlinked : String → Event
  deriving DecidableEq, Repr

/-- Path of the final artifact for a candidate:
`genre_path / (sanitize_filename "{song_name}-{artist_name}") .wav`
(lines 137-138). -/
def wav_path (genre_path : String) (song : Song) : String :=
  genre_path ++ "/" ++
    sanitize_filename (song.song_name ++ "-" ++ song.artist_name) ++ ".wav"

/-- Path of the staged intermediate download for a candidate
(line 158). -/
def temp_path (genre_path : String) (song : Song) : String :=
  genre_path ++ "/" ++
    sanitize_filename (song.song_name ++ "-" ++ song.artist_name) ++ ".m4a"

/-- Media-source query built for a candidate (line 148):
`"{song_name} {artist_name} audio"`. -/
def yt_query (song : Song) : String :=
  song.song_name ++ " " ++ song.artist_name ++ " audio"

/-- Embeds the body of the `for song in songs` loop of
`download_youtube_audio` (lines 134-173) for one candidate.  The
filesystem is the list of existing paths.  If the final artifact already
exists the candidate is skipped with no action; otherwise a search is
issued and, depending on the outcome, the staged file is created by the
download, `convert_to_wav` is invoked (creating the final artifact
exactly when the codec exits zero), and the staged file is then unlinked
unconditionally (`missing_ok=True`); any exception before that point is
caught by the `except` clause, leaving the filesystem as it was. -/
def download_one_song (genre_path : String) (fs : List String)
    (outcome : MediaOutcome) (song : Song) : List String × List Event :=
  let wav := wav_path genre_path song
  if wav ∈ fs then
    (fs, [])
  else
    match outcome with
    | MediaOutcome.searchError => (fs, [Event.searchIssued (yt_query song)])
    | MediaOutcome.noResults => (fs, [Event.searchIssued (yt_query song)])
    | MediaOutcome.downloadError =>
        (fs, [Event.searchIssued (yt_query song)])
    | MediaOutcome.downloaded proc =>
      let temp := temp_path genre_path song
      let fs1 := fs ++ [temp]
      let fs2 := if (convert_to_wav proc).outputCreated then fs1 ++ [wav]
        else fs1
      let fs3 := fs2.filter (fun p => p ≠ temp)
      (fs3, [Event.searchIssued (yt_query song),
        Event.downloadCompleted temp, Event.convertCalled temp wav,
        Event.unlinked temp])

/-- Embeds `download_youtube_audio` (lines 120-173): processes each
candidate in order, threading the filesystem and concatenating the event
traces. -/
def download_youtube_audio (genre_path : String)
    (oracle : Song → MediaOutcome) :
    List Song → List String → List String × List Event
  | [], fs => (fs, [])
  | song :: rest, fs =>
    let r1 := download_one_song genre_path fs (oracle song) song
    let r2 := download_youtube_audio genre_path oracle rest r1.1
    (r2.1, r1.2 ++ r2.2)

/-- C2: for every candidate whose final artifact already exists, the
downloader skips it: no media-source search is issued, no download
occurs, and the filesystem (hence the existing file) is unchanged. -/
theorem download_skips_existing_artifact (genre_path : String)
    (fs : List String) (outcome : MediaOutcome) (song : Song)
    (h : wav_path genre_path song ∈ fs) :
    download_one_song genre_path fs outcome song = (fs, []) := by
  unfold download_one_song
  simp [h]

/-- Witness for C2 at a concrete input: the candidate `Title` by
`Artist` whose `.wav` already exists is skipped with no events. -/
theorem download_skips_existing_artifact_witness :
    download_one_song "dataset/top_genres/jazz"
        ["dataset/top_genres/jazz/Title-Artist.wav"]
        (MediaOutcome.downloaded RunOutcome.ok) ⟨"Artist", "Title"⟩ =
      (["dataset/top_genres/jazz/Title-Artist.wav"], []) :=
  download_skips_existing_artifact "dataset/top_genres/jazz"
    ["dataset/top_genres/jazz/Title-Artist.wav"]
    (MediaOutcome.downloaded RunOutcome.ok) ⟨"Artist", "Title"⟩ (by decide)

/-- C3: for a candidate that is not skipped, whenever the download
completes the transcode step is invoked and the staged `.m4a` file is
absent afterwards (it is unlinked regardless of the codec outcome),
while on an error before or during the download (search error, no
results, stream or download failure) the transcode step is never invoked,
nothing is unlinked, and the filesystem is left unchanged, so a staged
file survives only in those cases. -/
theorem staged_file_removed_after_transcode (genre_path : String)
    (fs : List String) (song : Song)
    (h : wav_path genre_path song ∉ fs) :
    (∀ proc : RunOutcome,
      temp_path genre_path song ∉
          (download_one_song genre_path fs (MediaOutcome.downloaded proc)
            song).1 ∧
        Event.convertCalled (temp_path genre_path song)
            (wav_path genre_path song) ∈
          (download_one_song genre_path fs (MediaOutcome.downloaded proc)
            song).2 ∧
        Event.unlinked (temp_path genre_path song) ∈
          (download_one_song genre_path fs (MediaOutcome.downloaded proc)
            song).2) ∧
      (∀ outcome : MediaOutcome,
        (outcome = MediaOutcome.searchError ∨
          outcome = MediaOutcome.noResults ∨
          outcome = MediaOutcome.downloadError) →
        download_one_song genre_path fs outcome song =
          (fs, [Event.searchIssued (yt_query song)])) := by
  constructor
  · intro proc
    refine ⟨?_, ?_, ?_⟩
    · intro hmem
      unfold download_one_song at hmem
      rw [if_neg h] at hmem
      simp only at hmem
      have := List.of_mem_filter hmem
      simp at this
    · unfold download_one_song
      rw [if_neg h]
      simp
    · unfold download_one_song
      rw [if_neg h]
      simp
  · intro outcome houtcome
    rcases houtcome with rfl | rfl | rfl <;>
      · unfold download_one_song
        rw [if_neg h]

/-- Witness for C3 at a concrete input: with an empty filesystem and a
failing codec (exit code 1), the staged file is gone and the convert and
unlink events occurred; with a download error the filesystem is
untouched and only the search event occurred. -/
theorem staged_file_removed_after_transcode_witness :
    (temp_path "d/jazz" ⟨"A", "T"⟩ ∉
        (download_one_song "d/jazz" []
          (MediaOutcome.downloaded (RunOutcome.nonZero 1)) ⟨"A", "T"⟩).1 ∧
      Event.convertCalled (temp_path "d/jazz" ⟨"A", "T"⟩)
          (wav_path "d/jazz" ⟨"A", "T"⟩) ∈
        (download_one_song "d/jazz" []
          (MediaOutcome.downloaded (RunOutcome.nonZero 1)) ⟨"A", "T"⟩).2 ∧
      Event.unlinked (temp_path "d/jazz" ⟨"A", "T"⟩) ∈
        (download_one_song "d/jazz" []
          (MediaOutcome.downloaded (RunOutcome.nonZero 1)) ⟨"A", "T"⟩).2) ∧
    download_one_song "d/jazz" [] MediaOutcome.downloadError ⟨"A", "T"⟩ =
      ([], [Event.searchIssued (yt_query ⟨"A", "T"⟩)]) :=
  ⟨(staged_file_removed_after_transcode "d/jazz" [] ⟨"A", "T"⟩
      (by decide)).1 (RunOutcome.nonZero 1),
    (staged_file_removed_after_transcode "d/jazz" [] ⟨"A", "T"⟩
      (by decide)).2 MediaOutcome.downloadError (Or.inr (Or.inr rfl))⟩

/-- State of the per-genre driver loop of `build` when it stops: the
final `total_songs_fetched`, the final `offset`, the list of offsets at
which `get_songs_by_genre` was called (in order), and the filesystem
after the dispatched downloads. -/
structure BuildState where
  total : Nat
  offset : Nat
  calls : List Nat
  fs : List String
  deriving DecidableEq, Repr

/-- Embeds the `while total_songs_fetched < songs_per_genre` loop of
`build` (lines 107-116) for one genre, over an oracle `fetch` giving the
batch returned by `get_songs_by_genre` at each offset: while the total
is below the target, fetch a batch; stop on an empty batch; otherwise
dispatch the batch to `download_youtube_audio` (whose outcome does not
feed back into the loop counters), add the batch size to the total and
50 to the offset. -/
def buildLoop (fetch : Nat → List Song) (oracle : Song → MediaOutcome)
    (genre_path : String) (target offset total : Nat) (fs : List String) :
    BuildState :=
  if h : total < target then
    let songs := fetch offset
    if hs : songs = [] then
      ⟨total, offset, [offset], fs⟩
    else
      let fs1 := (download_youtube_audio genre_path oracle songs fs).1
      let r := buildLoop fetch oracle genre_path target (offset + 50)
        (total + songs.length) fs1
      ⟨r.total, r.offset, offset :: r.calls, r.fs⟩
  else ⟨total, offset, [], fs⟩
termination_by target - total
decreasing_by
  simp_wf
  have hlen : 0 < (fetch offset).length := List.length_pos.mpr hs
  omega

/-- Embeds the body of `build` (lines 101-118) for one genre: the loop
starts at offset 0 with zero songs fetched. -/
def build_genre (fetch : Nat → List Song) (oracle : Song → MediaOutcome)
    (genre_path : String) (target : Nat) (fs : List String) : BuildState :=
  buildLoop fetch oracle genre_path target 0 0 fs


/-- Evaluation of the driver loop when the target is already met: no
fetch is made. -/
theorem buildLoop_stop (fetch : Nat → List Song)
    (oracle : Song → MediaOutcome) (genre_path : String)
    (target offset total : Nat) (fs : List String)
    (h : ¬ total < target) :
    buildLoop fetch oracle genre_path target offset total fs =
      ⟨total, offset, [], fs⟩ := by
  rw [buildLoop.eq_def]
  simp only [dif_neg h]

/-- Evaluation of the driver loop when the fetched batch is empty: the
loop stops after this single call. -/
theorem buildLoop_empty (fetch : Nat → List Song)
    (oracle : Song → MediaOutcome) (genre_path : String)
    (target offset total : Nat) (fs : List String)
    (h : total < target) (hs : fetch offset = []) :
    buildLoop fetch oracle genre_path target offset total fs =
      ⟨total, offset, [offset], fs⟩ := by
  rw [buildLoop.eq_def]
  simp only [dif_pos h, dif_pos hs]

/-- Evaluation of the driver loop on a non-empty batch: the batch is
dispatched to the downloader, the counters advance by the batch size and
by 50, and the loop continues. -/
theorem buildLoop_step (fetch : Nat → List Song)
    (oracle : Song → MediaOutcome) (genre_path : String)
    (target offset total : Nat) (fs : List String)
    (h : total < target) (hs : fetch offset ≠ []) :
    buildLoop fetch oracle genre_path target offset total fs =
      ⟨(buildLoop fetch oracle genre_path target (offset + 50)
          (total + (fetch offset).length)
          ((download_youtube_audio genre_path oracle (fetch offset)
            fs).1)).total,
        (buildLoop fetch oracle genre_path target (offset + 50)
          (total + (fetch offset).length)
          ((download_youtube_audio genre_path oracle (fetch offset)
            fs).1)).offset,
        offset :: (buildLoop fetch oracle genre_path target (offset + 50)
          (total + (fetch offset).length)
          ((download_youtube_audio genre_path oracle (fetch offset)
            fs).1)).calls,
        (buildLoop fetch oracle genre_path target (offset + 50)
          (total + (fetch offset).length)
          ((download_youtube_audio genre_path oracle (fetch offset)
            fs).1)).fs⟩ := by
  rw [buildLoop.eq_def]
  simp only [dif_pos h, dif_neg hs]

/-- Invariants of the driver loop from any starting offset and total:
call offsets advance in steps of 50, the total advances by the fetched
batch sizes, every call is made while the running total is below the
target, every non-final batch is non-empty, and the loop stops with the
total at the target or after an empty batch. -/
theorem buildLoop_spec (fetch : Nat → List Song)
    (oracle : Song → MediaOutcome) (genre_path : String) (target : Nat) :
    ∀ (n offset total : Nat) (fs : List String), target - total ≤ n →
      (∀ (i : Nat) (hi : i < (buildLoop fetch oracle genre_path target
          offset total fs).calls.length),
        (buildLoop fetch oracle genre_path target offset total
            fs).calls.get ⟨i, hi⟩ = offset + 50 * i) ∧
      (buildLoop fetch oracle genre_path target offset total fs).total =
        total + ((buildLoop fetch oracle genre_path target offset total
          fs).calls.map (fun c => (fetch c).length)).sum ∧
      (target ≤ (buildLoop fetch oracle genre_path target offset total
          fs).total ∨
        ∃ c, (buildLoop fetch oracle genre_path target offset total
            fs).calls.getLast? = some c ∧ fetch c = []) ∧
      (∀ i : Nat, i + 1 < (buildLoop fetch oracle genre_path target offset
          total fs).calls.length → fetch (offset + 50 * i) ≠ []) ∧
      (∀ i : Nat, i < (buildLoop fetch oracle genre_path target offset
          total fs).calls.length →
        total + (((buildLoop fetch oracle genre_path target offset total
          fs).calls.take i).map (fun c => (fetch c).length)).sum <
          target) := by
  intro n
  induction n with
  | zero =>
    intro offset total fs hn
    have hterm : ¬ total < target := by omega
    rw [buildLoop_stop fetch oracle genre_path target offset total fs hterm]
    refine ⟨?_, by simp, Or.inl (Nat.le_of_not_lt hterm), ?_, ?_⟩
    · intro i hi
      simp at hi
    · intro i hi
      simp at hi
    · intro i hi
      simp at hi
  | succ n ih =>
    intro offset total fs hn
    by_cases h : total < target
    · by_cases hs : fetch offset = []
      · rw [buildLoop_empty fetch oracle genre_path target offset total fs
          h hs]
        refine ⟨?_, by simp [hs], ?_, ?_, ?_⟩
        · intro i hi
          simp only [List.length_singleton] at hi
          interval_cases i
          simp
        · exact Or.inr ⟨offset, by simp, hs⟩
        · intro i hi
          simp only [List.length_singleton] at hi
          omega
        · intro i hi
          simp only [List.length_singleton] at hi
          interval_cases i
          simpa using h
      · have hlen : 0 < (fetch offset).length := List.length_pos.mpr hs
        rw [buildLoop_step fetch oracle genre_path target offset total fs
          h hs]
        have hrec := ih (offset + 50) (total + (fetch offset).length)
          ((download_youtube_audio genre_path oracle (fetch offset) fs).1)
          (by omega)
        set r := buildLoop fetch oracle genre_path target (offset + 50)
          (total + (fetch offset).length)
          ((download_youtube_audio genre_path oracle (fetch offset) fs).1)
          with hr
        obtain ⟨ih1, ih2, ih3, ih4, ih5⟩ := hrec
        refine ⟨?_, ?_, ?_, ?_, ?_⟩
        · intro i hi
          match i with
          | 0 => simp
          | Nat.succ j =>
            have hj : j < r.calls.length := by
              simpa using hi
            have hstep := ih1 j hj
            simp only [List.get_cons_succ]
            rw [hstep]
            omega
        · simp only [List.map_cons, List.sum_cons]
          rw [ih2]
          omega
        · rcases ih3 with h3 | ⟨c, hc1, hc2⟩
          · exact Or.inl h3
          · refine Or.inr ⟨c, ?_, hc2⟩
            rcases hcalls : r.calls with _ | ⟨b, l⟩
            · rw [hcalls] at hc1
              simp at hc1
            · rw [hcalls] at hc1
              rw [List.getLast?_cons_cons]
              exact hc1
        · intro i hi
          match i with
          | 0 => simpa using hs
          | Nat.succ j =>
            have hj : j + 1 < r.calls.length := by
              simpa using hi
            have hstep := ih4 j hj
            have harg : offset + 50 * (j + 1) = offset + 50 + 50 * j := by
              ring
            rw [harg]
            exact hstep
        · intro i hi
          match i with
          | 0 => simpa using h
          | Nat.succ j =>
            have hj : j < r.calls.length := by
              simpa using hi
            have hstep := ih5 j hj
            simp only [List.take_succ_cons, List.map_cons, List.sum_cons]
            omega
    · rw [buildLoop_stop fetch oracle genre_path target offset total fs h]
      refine ⟨?_, by simp, Or.inl (Nat.le_of_not_lt h), ?_, ?_⟩
      · intro i hi
        simp at hi
      · intro i hi
        simp at hi
      · intro i hi
        simp at hi

/-- The loop counters and the sequence of fetch offsets of the driver
loop do not depend on the download outcomes or on the initial
filesystem. -/
theorem buildLoop_count_indep (fetch : Nat → List Song)
    (genre_path : String) (target : Nat) :
    ∀ (n offset total : Nat) (fs fs2 : List String)
      (oracle oracle2 : Song → MediaOutcome), target - total ≤ n →
      (buildLoop fetch oracle genre_path target offset total fs).total =
          (buildLoop fetch oracle2 genre_path target offset total
            fs2).total ∧
        (buildLoop fetch oracle genre_path target offset total fs).calls =
          (buildLoop fetch oracle2 genre_path target offset total
            fs2).calls ∧
        (buildLoop fetch oracle genre_path target offset total fs).offset =
          (buildLoop fetch oracle2 genre_path target offset total
            fs2).offset := by
  intro n
  induction n with
  | zero =>
    intro offset total fs fs2 oracle oracle2 hn
    have hterm : ¬ total < target := by omega
    rw [buildLoop_stop fetch oracle genre_path target offset total fs hterm,
      buildLoop_stop fetch oracle2 genre_path target offset total fs2 hterm]
    exact ⟨rfl, rfl, rfl⟩
  | succ n ih =>
    intro offset total fs fs2 oracle oracle2 hn
    by_cases h : total < target
    · by_cases hs : fetch offset = []
      · rw [buildLoop_empty fetch oracle genre_path target offset total fs
          h hs,
          buildLoop_empty fetch oracle2 genre_path target offset total fs2
          h hs]
        exact ⟨rfl, rfl, rfl⟩
      · have hlen : 0 < (fetch offset).length := List.length_pos.mpr hs
        rw [buildLoop_step fetch oracle genre_path target offset total fs
          h hs,
          buildLoop_step fetch oracle2 genre_path target offset total fs2
          h hs]
        have hrec := ih (offset + 50) (total + (fetch offset).length)
          ((download_youtube_audio genre_path oracle (fetch offset) fs).1)
          ((download_youtube_audio genre_path oracle2 (fetch offset)
            fs2).1) oracle oracle2 (by omega)
        exact ⟨hrec.1, by rw [hrec.2.1], hrec.2.2⟩
    · rw [buildLoop_stop fetch oracle genre_path target offset total fs h,
        buildLoop_stop fetch oracle2 genre_path target offset total fs2 h]
      exact ⟨rfl, rfl, rfl⟩
/-- C5: for every genre, the driver loop of `build` calls the fetcher at
offsets 0, 50, 100, ... (consecutive calls use strictly increasing
offsets in steps of 50); the final fetched count is the sum of the batch
sizes of all fetch calls (an empty final batch contributes zero); the
loop stops exactly when the count reaches the target or a fetch returns
an empty batch — every call is made while the count is still below the
target, every non-final batch is non-empty, and at termination the count
is at least the target or the last batch was empty; and the count and
call offsets are independent of the download outcomes (the count
advances by batch size, not by successful downloads). -/
theorem build_genre_pagination_invariants (fetch : Nat → List Song)
    (oracle : Song → MediaOutcome) (genre_path : String) (target : Nat)
    (fs : List String) :
    (∀ (i : Nat) (hi : i < (build_genre fetch oracle genre_path target
        fs).calls.length),
      (build_genre fetch oracle genre_path target fs).calls.get ⟨i, hi⟩ =
        50 * i) ∧
    (build_genre fetch oracle genre_path target fs).total =
      ((build_genre fetch oracle genre_path target fs).calls.map
        (fun c => (fetch c).length)).sum ∧
    (target ≤ (build_genre fetch oracle genre_path target fs).total ∨
      ∃ c, (build_genre fetch oracle genre_path target
          fs).calls.getLast? = some c ∧ fetch c = []) ∧
    (∀ i : Nat, i + 1 < (build_genre fetch oracle genre_path target
        fs).calls.length → fetch (50 * i) ≠ []) ∧
    (∀ i : Nat, i < (build_genre fetch oracle genre_path target
        fs).calls.length →
      (((build_genre fetch oracle genre_path target fs).calls.take i).map
        (fun c => (fetch c).length)).sum < target) ∧
    (∀ (oracle2 : Song → MediaOutcome) (fs2 : List String),
      (build_genre fetch oracle2 genre_path target fs2).total =
          (build_genre fetch oracle genre_path target fs).total ∧
        (build_genre fetch oracle2 genre_path target fs2).calls =
          (build_genre fetch oracle genre_path target fs).calls) := by
  obtain ⟨s1, s2, s3, s4, s5⟩ :=
    buildLoop_spec fetch oracle genre_path target target 0 0 fs
      (by omega)
  refine ⟨?_, ?_, s3, ?_, ?_, ?_⟩
  · intro i hi
    have hstep := s1 i hi
    simpa using hstep
  · simpa using s2
  · intro i hi
    have hstep := s4 i hi
    simpa using hstep
  · intro i hi
    have hstep := s5 i hi
    simpa using hstep
  · intro oracle2 fs2
    have hind := buildLoop_count_indep fetch genre_path target target 0 0
      fs2 fs oracle2 oracle (by omega)
    exact ⟨hind.1, hind.2.1⟩

/-- Example fetch oracle: one batch of one song at offset 0, nothing
afterwards. -/
def demo_fetch : Nat → List Song :=
  fun offset => if offset = 0 then [⟨"ArtistB", "SongA"⟩] else []

/-- Example download oracle: every media search returns no results. -/
def demo_oracle : Song → MediaOutcome :=
  fun _ => MediaOutcome.noResults

/-- Evaluation of the driver loop on the example oracles with target 2:
two fetch calls at offsets 0 and 50, one song counted. -/
theorem build_genre_demo_eval :
    build_genre demo_fetch demo_oracle "dataset/top_genres/jazz" 2 [] =
      ⟨1, 50, [0, 50], []⟩ := by
  unfold build_genre
  rw [buildLoop_step demo_fetch demo_oracle "dataset/top_genres/jazz" 2 0 0
    [] (by omega) (by decide)]
  have hlen : (demo_fetch 0).length = 1 := rfl
  have hdl : (download_youtube_audio "dataset/top_genres/jazz" demo_oracle
      (demo_fetch 0) []).1 = [] := rfl
  rw [hlen, hdl, Nat.zero_add, Nat.zero_add]
  rw [buildLoop_empty demo_fetch demo_oracle "dataset/top_genres/jazz" 2 50
    1 [] (by omega) (by decide)]

/-- Witness for C5 at a concrete input: on the example oracles the second
fetch call is at offset 50, and the batch before the final call is
non-empty. -/
theorem build_genre_pagination_invariants_witness :
    (build_genre demo_fetch demo_oracle "dataset/top_genres/jazz" 2
        []).calls.get ⟨1, by rw [build_genre_demo_eval]; decide⟩ = 50 * 1 ∧
      demo_fetch (50 * 0) ≠ [] :=
  ⟨(build_genre_pagination_invariants demo_fetch demo_oracle
      "dataset/top_genres/jazz" 2 []).1 1
      (by rw [build_genre_demo_eval]; decide),
    (build_genre_pagination_invariants demo_fetch demo_oracle
      "dataset/top_genres/jazz" 2 []).2.2.2.1 0
      (by rw [build_genre_demo_eval]; decide)⟩

end MusicCat
